import Mathlib

/-!
Verification of the mortgage amortization engine in
`src/balance_sheet/debt.py` against its natural-language specification.

The Python code is shallowly embedded: currency amounts and rates are
modelled as exact rationals (`ℚ`), `datetime.date` values as a `Date`
structure, Python's dynamically typed numeric-or-string parameters as the
`PyVal` sum type, and raised exceptions as `Except String`.  Every
definition below is translated from the source file; in particular the
`renew_mortgage` method is embedded as the `pass` stub it is there.
-/

/-! ## Calendar dates (embedding of `datetime` + `relativedelta`) -/

structure Date where
  year : ℕ
  month : ℕ
  day : ℕ
deriving DecidableEq

def isLeapYear (y : ℕ) : Bool :=
  (y % 4 == 0 && y % 100 != 0) || y % 400 == 0

def daysInMonth (y m : ℕ) : ℕ :=
  if m = 2 then (if isLeapYear y then 29 else 28)
  else if m = 4 ∨ m = 6 ∨ m = 9 ∨ m = 11 then 30
  else 31

/-- Embedding of `date + relativedelta(months=i)`: advance by whole months,
clamping the day to the length of the target month. -/
def addMonths (d : Date) (i : ℕ) : Date :=
  let t := d.year * 12 + (d.month - 1) + i
  let y := t / 12
  let m := t % 12 + 1
  ⟨y, m, min d.day (daysInMonth y m)⟩

def nextDay (d : Date) : Date :=
  if d.day < daysInMonth d.year d.month then ⟨d.year, d.month, d.day + 1⟩
  else if d.month < 12 then ⟨d.year, d.month + 1, 1⟩
  else ⟨d.year + 1, 1, 1⟩

/-- Advance a calendar date by `n` days (Gregorian calendar). -/
def addDays (d : Date) : ℕ → Date
  | 0 => d
  | n + 1 => addDays (nextDay d) n

/-- Strict calendar order on dates (year, then month, then day). -/
def dateLt (a b : Date) : Bool :=
  if a.year < b.year then true
  else if b.year < a.year then false
  else if a.month < b.month then true
  else if b.month < a.month then false
  else decide (a.day < b.day)

/-! ## String helpers (embedding of `str.isdigit`, `int(...)`, `strptime`) -/

def digitsToNat (l : List Char) : ℕ :=
  l.foldl (fun a c => a * 10 + (c.toNat - 48)) 0

/-- Embedding of Python's `str.isdigit` (restricted to ASCII, which covers
every string the repository ever passes). -/
def isDigitStr (s : String) : Bool :=
  !s.data.isEmpty && s.data.all Char.isDigit

def strToNat (s : String) : ℕ := digitsToNat s.data

/-- Split a character list on the dash character. -/
def splitOnDash : List Char → List (List Char)
  | [] => [[]]
  | c :: rest =>
    let r := splitOnDash rest
    if c = '-' then [] :: r
    else
      match r with
      | [] => [[c]]
      | h :: t => (c :: h) :: t

/-- Embedding of `datetime.strptime(s, "%Y-%m-%d")`: three dash-separated
digit groups forming a valid calendar date. -/
def parseDate (s : String) : Option Date :=
  match splitOnDash s.data with
  | [ys, ms, ds] =>
    if (!ys.isEmpty && ys.all Char.isDigit) && (!ms.isEmpty && ms.all Char.isDigit)
        && (!ds.isEmpty && ds.all Char.isDigit) then
      let y := digitsToNat ys
      let mo := digitsToNat ms
      let d := digitsToNat ds
      if 1 ≤ mo ∧ mo ≤ 12 ∧ 1 ≤ d ∧ d ≤ daysInMonth y mo then some ⟨y, mo, d⟩
      else none
    else none
  | _ => none

/-! ## Python argument values -/

/-- A Python argument that may be an `int`, a `float`, or a `str`.  Floats
are modelled as exact rationals. -/
inductive PyVal where
  | vint (n : ℤ)
  | vfloat (q : ℚ)
  | vstr (s : String)
deriving DecidableEq

/-- A `start_date` argument: either a `datetime` or a string to be parsed. -/
inductive DateVal where
  | dt (d : Date)
  | str (s : String)
deriving DecidableEq

/-! ## Field validators (embedding of the property setters of `Mortgage`) -/

def principalMsg : String :=
  "Invalid principal - please set the value between 0 and 10,000,000."

def interestRateMsg : String :=
  "Invalid interest_rate - please set the value between 0 and 0.25"

def termMsg : String :=
  "Invalid term - please choose a mortgage term between 1 and 30."

def amortizationMsg : String :=
  "Invalid amortization - please choose a amortization period between 1 and 30."

def startDateMsg : String :=
  "Invalid start_date - please choose a valid date in YYYY-MM-DD format."

def prepaymentMsg : String :=
  "Invalid prepayment_per_period - please an integer between 0 and 20,000."

def productMsg : String :=
  "Invalid product - please choose between 'variable' and 'fixed'."

def paymentsPerYearMsg : String :=
  "Invalid payments_per_year - please choose from (1, 26, 52)."

/-- Embedding of the `principal` setter: digit strings are parsed, the value
must lie in `[1, 10_000_000]`, and the stored value is `int(principal)`. -/
def validate_principal : PyVal → Except String ℚ
  | .vstr s =>
    if isDigitStr s then
      let p : ℚ := (strToNat s : ℚ)
      if 1 ≤ p ∧ p ≤ 10000000 then .ok p else .error principalMsg
    else .error principalMsg
  | .vint n =>
    if 1 ≤ n ∧ n ≤ 10000000 then .ok (n : ℚ) else .error principalMsg
  | .vfloat q =>
    if 1 ≤ q ∧ q ≤ 10000000 then .ok ((⌊q⌋ : ℤ) : ℚ) else .error principalMsg

/-- Embedding of the percentage normalization step of the `interest_rate`
setter: values at least `1.0` are divided by `100`. -/
def rateNormalize (r : ℚ) : ℚ := if 1 ≤ r then r / 100 else r

def rateRangeCheck (r : ℚ) : Except String ℚ :=
  if 0 ≤ r ∧ r ≤ 1/4 then .ok r else .error interestRateMsg

/-- Embedding of the `interest_rate` setter: numeric strings are parsed,
values at least `1.0` are divided by `100`, then the value must lie in
`[0, 0.25]`. -/
def validate_interest_rate : PyVal → Except String ℚ
  | .vstr s =>
    if isDigitStr s then rateRangeCheck (rateNormalize (strToNat s : ℚ))
    else .error interestRateMsg
  | .vint n => rateRangeCheck (rateNormalize (n : ℚ))
  | .vfloat q => rateRangeCheck (rateNormalize q)

/-- Embedding of the `term` setter: integer in `[1, 30]`. -/
def validate_term : PyVal → Except String ℕ
  | .vstr s =>
    if isDigitStr s then
      let t := strToNat s
      if 1 ≤ t ∧ t ≤ 30 then .ok t else .error termMsg
    else .error termMsg
  | .vint n =>
    if 1 ≤ n ∧ n ≤ 30 then .ok n.toNat else .error termMsg
  | .vfloat q =>
    if 1 ≤ q ∧ q ≤ 30 then .ok (⌊q⌋).toNat else .error termMsg

/-- Embedding of the `amortization` setter: integer in `[1, 30]`. -/
def validate_amortization : PyVal → Except String ℕ
  | .vstr s =>
    if isDigitStr s then
      let a := strToNat s
      if 1 ≤ a ∧ a ≤ 30 then .ok a else .error amortizationMsg
    else .error amortizationMsg
  | .vint n =>
    if 1 ≤ n ∧ n ≤ 30 then .ok n.toNat else .error amortizationMsg
  | .vfloat q =>
    if 1 ≤ q ∧ q ≤ 30 then .ok (⌊q⌋).toNat else .error amortizationMsg

/-- Embedding of the `start_date` setter: a `datetime` passes through, a
string must parse under `%Y-%m-%d`. -/
def validate_start_date : DateVal → Except String Date
  | .dt d => .ok d
  | .str s =>
    match parseDate s with
    | some d => .ok d
    | none => .error startDateMsg

/-- Embedding of the `prepayment_per_period` setter: integer in `[0, 20000]`. -/
def validate_prepayment_per_period : PyVal → Except String ℕ
  | .vstr s =>
    if isDigitStr s then
      let p := strToNat s
      if p ≤ 20000 then .ok p else .error prepaymentMsg
    else .error prepaymentMsg
  | .vint n =>
    if 0 ≤ n ∧ n ≤ 20000 then .ok n.toNat else .error prepaymentMsg
  | .vfloat q =>
    if 0 ≤ q ∧ q ≤ 20000 then .ok (⌊q⌋).toNat else .error prepaymentMsg

def charLower (c : Char) : Char :=
  if 'A' ≤ c ∧ c ≤ 'Z' then Char.ofNat (c.toNat + 32) else c

def isSpaceChar (c : Char) : Bool :=
  c = ' ' || c = '\t' || c = '\n' || c = '\r'

def trimChars (l : List Char) : List Char :=
  ((l.dropWhile isSpaceChar).reverse.dropWhile isSpaceChar).reverse

/-- Embedding of the `product` setter: `strip().lower()` must be `fixed` or
`variable`. -/
def validate_product (s : String) : Except String String :=
  let t := (trimChars s.data).map charLower
  if t = "fixed".data ∨ t = "variable".data then .ok (String.mk t)
  else .error productMsg

/-- Embedding of the `payments_per_year` setter: the parsed value must be
one of `12`, `26`, `52`. -/
def validate_payments_per_year : PyVal → Except String ℕ
  | .vstr s =>
    if isDigitStr s then
      let p := strToNat s
      if p = 12 ∨ p = 26 ∨ p = 52 then .ok p else .error paymentsPerYearMsg
    else .error paymentsPerYearMsg
  | .vint n =>
    if n = 12 ∨ n = 26 ∨ n = 52 then .ok n.toNat else .error paymentsPerYearMsg
  | .vfloat q =>
    if q = 12 ∨ q = 26 ∨ q = 52 then .ok (⌊q⌋).toNat else .error paymentsPerYearMsg

/-! ## Numeric core (embedding of the `numpy_financial` functions used) -/

/-- Embedding of `npf.pmt(rate, nper, pv)` with `fv = 0`, `when = 'end'`:
the (negative) level payment of an ordinary annuity. -/
def pmtQ (rate : ℚ) (nper : ℕ) (pv : ℚ) : ℚ :=
  if rate = 0 then -(pv / nper)
  else -(pv * ((1 + rate) ^ nper * rate) / ((1 + rate) ^ nper - 1))

/-- Embedding of `npf.fv(rate, nper, pmt, pv)` with `when = 'end'`. -/
def fvQ (rate : ℚ) (nper : ℕ) (pmt pv : ℚ) : ℚ :=
  if rate = 0 then -(pv + pmt * nper)
  else -(pv * (1 + rate) ^ nper + pmt * ((1 + rate) ^ nper - 1) / rate)

/-- Embedding of `npf.ipmt(rate, per, nper, pv)`: the remaining balance
after `per - 1` payments (via `npf.fv`) times the period rate. -/
def ipmtQ (rate : ℚ) (per nper : ℕ) (pv : ℚ) : ℚ :=
  fvQ rate (per - 1) (pmtQ rate nper pv) pv * rate

/-- Embedding of `npf.ppmt(rate, per, nper, pv) = pmt - ipmt`. -/
def ppmtQ (rate : ℚ) (per nper : ℕ) (pv : ℚ) : ℚ :=
  pmtQ rate nper pv - ipmtQ rate per nper pv

/-! ## The Mortgage model -/

/-- One row of the amortization table (`pandas.DataFrame` row, embedding of
the six columns built in `create_amortization_table`). -/
structure PeriodRow where
  payment_date : Date
  payment_num : ℕ
  payment : ℚ
  balance : ℚ
  interest_portion : ℚ
  principal_portion : ℚ
deriving DecidableEq

/-- The validated state of a `Mortgage` instance: exactly the fields stored
by the property setters.  Field order follows `Mortgage.__init__`. -/
structure Mortgage where
  principal : ℚ
  interest_rate : ℚ
  term : ℕ
  amortization : ℕ
  start_date : Date
  prepayment_per_period : ℕ
  product : String
  payments_per_year : ℕ
deriving DecidableEq

/-- Derived attribute `period_rate = interest_rate / payments_per_year`. -/
def Mortgage.period_rate (m : Mortgage) : ℚ :=
  m.interest_rate / (m.payments_per_year : ℚ)

/-- Derived attribute `num_periods = amortization * payments_per_year`. -/
def Mortgage.num_periods (m : Mortgage) : ℕ :=
  m.amortization * m.payments_per_year

/-- At construction `current_balance = principal` (it is never mutated:
`make_lumpsum_payment` is a stub). -/
def Mortgage.current_balance (m : Mortgage) : ℚ := m.principal

/-- Embedding of `calculate_payment`:
`payment = -npf.pmt(period_rate, num_periods, current_balance)`. -/
def Mortgage.payment (m : Mortgage) : ℚ :=
  -(pmtQ m.period_rate m.num_periods m.current_balance)

/-- Embedding of `term_end_date = start_date + relativedelta(years=term)`. -/
def Mortgage.term_end_date (m : Mortgage) : Date :=
  addMonths m.start_date (12 * m.term)

/-- Embedding of `_calculate_interest_portion(current_period, current_balance)`. -/
def Mortgage.calcInterestPortion (m : Mortgage) (per : ℕ) (bal : ℚ) : ℚ :=
  -(ipmtQ m.period_rate per m.num_periods bal)

/-- Embedding of `_calculate_principal_portion(current_period, current_balance)`. -/
def Mortgage.calcPrincipalPortion (m : Mortgage) (per : ℕ) (bal : ℚ) : ℚ :=
  -(ppmtQ m.period_rate per m.num_periods bal)

/-- The `balance` column of the table.  In the source the `balance` list is
pre-filled with `principal` and entry `i` is only overwritten after the two
portion calls of iteration `i`, so every portion call reads `principal`;
the overwrite sets `balance[i] = balance[i-1] - principal_portion[i]`
(with `balance[-1]` read as `principal` at `i = 0`). -/
def Mortgage.balAfter (m : Mortgage) : ℕ → ℚ
  | 0 => m.principal - m.calcPrincipalPortion 1 m.principal
  | i + 1 => m.balAfter i - m.calcPrincipalPortion (i + 2) m.principal

/-- Row `i` (0-based) of the amortization table: date advanced by `i`
months, period number `i + 1`, the constant payment, and the portions
computed from the initial principal as in the source loop. -/
def Mortgage.row (m : Mortgage) (i : ℕ) : PeriodRow :=
  ⟨addMonths m.start_date i, i + 1, m.payment, m.balAfter i,
    m.calcInterestPortion (i + 1) m.principal,
    m.calcPrincipalPortion (i + 1) m.principal⟩

/-- Embedding of `create_amortization_table`: the `DataFrame` as the ordered
list of its rows. -/
def Mortgage.amortization_table (m : Mortgage) : List PeriodRow :=
  (List.range m.num_periods).map m.row

/-- The running balance entering each period, as the specification describes
it: the principal before period 1, then decremented by each row's
principal portion. -/
def Mortgage.runningBalance (m : Mortgage) : ℕ → ℚ
  | 0 => m.principal
  | i + 1 => m.runningBalance i - (m.row i).principal_portion

/-- Embedding of `Mortgage.__init__`: every field passes its setter in
source order (principal and interest_rate first, via `Debt.__init__`), and
only then is the instance visible.  An error leaves no instance at all. -/
def Mortgage.make (principal interest_rate term amortization : PyVal)
    (start_date : DateVal) (prepayment_per_period : PyVal)
    (product : String) (payments_per_year : PyVal) :
    Except String Mortgage := do
  let p ← validate_principal principal
  let r ← validate_interest_rate interest_rate
  let t ← validate_term term
  let a ← validate_amortization amortization
  let sd ← validate_start_date start_date
  let pp ← validate_prepayment_per_period prepayment_per_period
  let pr ← validate_product product
  let ppy ← validate_payments_per_year payments_per_year
  .ok ⟨p, r, t, a, sd, pp, pr, ppy⟩

/-- The domain invariants the setters enforce on a stored instance. -/
def Mortgage.Valid (m : Mortgage) : Prop :=
  1 ≤ m.principal ∧ m.principal ≤ 10000000 ∧
  0 ≤ m.interest_rate ∧ m.interest_rate ≤ 1/4 ∧
  1 ≤ m.term ∧ m.term ≤ 30 ∧
  1 ≤ m.amortization ∧ m.amortization ≤ 30 ∧
  m.prepayment_per_period ≤ 20000 ∧
  (m.payments_per_year = 12 ∨ m.payments_per_year = 26 ∨ m.payments_per_year = 52)

instance (m : Mortgage) : Decidable m.Valid := by
  unfold Mortgage.Valid
  infer_instance

/-- Embedding of `renew_mortgage`.  The source body is only `pass` (a
`TODO` stub): the call validates nothing, raises nothing, and mutates
nothing, returning `None` with `self` exactly as it was.  The post-state
is therefore the unchanged instance, whatever the arguments; the
`currentDate` parameter stands for the date of invocation, which the stub
(like the rest of the body) never consults. -/
def Mortgage.renew_mortgage (m : Mortgage) (currentDate : Date)
    (term interest_rate : PyVal) (type : String)
    (amortization_period : PyVal) (start_date : DateVal) :
    Except String Mortgage :=
  .ok m

/-- Embedding of `datetime.strptime` coercion used inside
`_calculate_num_periods_between_dates`. -/
def toDatetime : DateVal → Except String Date
  | .dt d => .ok d
  | .str s =>
    match parseDate s with
    | some d => .ok d
    | none => .error "ValueError: time data does not match format Y-m-d"

/-- Embedding of `_calculate_num_periods_between_dates`.  The source
computes `(end_date - start_date)`, a `datetime.timedelta`, and then reads
its `.months` attribute — `timedelta` has no such attribute, so after both
dates coerce the call always raises `AttributeError`; the raised exception
is embedded as `Except.error`.  Note the method reads nothing from `self`,
so the result cannot depend on `payments_per_year`. -/
def calculate_num_periods_between_dates (start_date end_date : DateVal) :
    Except String ℕ := do
  let _ ← toDatetime start_date
  let _ ← toDatetime end_date
  .error "AttributeError: datetime.timedelta object has no attribute months"

/-! ## Concrete instances used by witnesses and counterexamples -/

/-- A valid mortgage: 1000 at 12% annual over one year of monthly payments
(period rate 1/100, 12 periods). -/
def mW : Mortgage := ⟨1000, 3/25, 1, 1, ⟨2021, 7, 1⟩, 0, "fixed", 12⟩

/-- The same mortgage at a 0% rate (degenerate branch). -/
def mZ : Mortgage := ⟨1000, 0, 1, 1, ⟨2021, 7, 1⟩, 0, "fixed", 12⟩

/-- A valid zero-rate mortgage paid biweekly (26 payments per year). -/
def mB : Mortgage := ⟨1000, 0, 1, 1, ⟨2021, 7, 1⟩, 0, "fixed", 26⟩

/-- Identical to `mW` except for a nonzero `prepayment_per_period`. -/
def mP : Mortgage := ⟨1000, 3/25, 1, 1, ⟨2021, 7, 1⟩, 1000, "fixed", 12⟩

lemma mW_valid : mW.Valid := by unfold Mortgage.Valid mW; norm_num

lemma mZ_valid : mZ.Valid := by unfold Mortgage.Valid mZ; norm_num

lemma mB_valid : mB.Valid := by unfold Mortgage.Valid mB; norm_num

lemma mP_valid : mP.Valid := by unfold Mortgage.Valid mP; norm_num

lemma mW_rate_pos : 0 < mW.period_rate := by
  unfold Mortgage.period_rate mW
  norm_num

/-! ## Annuity algebra -/

/-- The theoretical remaining balance of a `P`-principal annuity with level
payment `PMT` after `k` periods at period rate `r`. -/
def annuityBalance (r P PMT : ℚ) (k : ℕ) : ℚ :=
  if r = 0 then P - PMT * k
  else P * (1 + r) ^ k - PMT * ((1 + r) ^ k - 1) / r

lemma annuityBalance_zero (r P PMT : ℚ) : annuityBalance r P PMT 0 = P := by
  unfold annuityBalance
  split <;> simp

lemma annuityBalance_succ (r P PMT : ℚ) (k : ℕ) :
    annuityBalance r P PMT (k + 1) = annuityBalance r P PMT k * (1 + r) - PMT := by
  unfold annuityBalance
  by_cases hr : r = 0
  · simp only [if_pos hr, hr]
    push_cast
    ring
  · simp only [if_neg hr]
    field_simp
    ring

lemma fvQ_pmt (r : ℚ) (k n : ℕ) (P : ℚ) :
    fvQ r k (pmtQ r n P) P = -(annuityBalance r P (-(pmtQ r n P)) k) := by
  unfold fvQ annuityBalance
  by_cases hr : r = 0
  · simp only [if_pos hr]
    ring
  · simp only [if_neg hr]
    ring

lemma calcInterestPortion_eq (m : Mortgage) (k : ℕ) :
    m.calcInterestPortion (k + 1) m.principal =
      annuityBalance m.period_rate m.principal m.payment k * m.period_rate := by
  unfold Mortgage.calcInterestPortion ipmtQ
  rw [show k + 1 - 1 = k from rfl, fvQ_pmt]
  unfold Mortgage.payment Mortgage.current_balance
  ring

lemma calcPrincipalPortion_eq (m : Mortgage) (k : ℕ) :
    m.calcPrincipalPortion (k + 1) m.principal =
      annuityBalance m.period_rate m.principal m.payment k -
        annuityBalance m.period_rate m.principal m.payment (k + 1) := by
  unfold Mortgage.calcPrincipalPortion ppmtQ ipmtQ
  rw [show k + 1 - 1 = k from rfl, fvQ_pmt, annuityBalance_succ]
  unfold Mortgage.payment Mortgage.current_balance
  ring

lemma balAfter_eq (m : Mortgage) (i : ℕ) :
    m.balAfter i = annuityBalance m.period_rate m.principal m.payment (i + 1) := by
  induction i with
  | zero =>
    rw [Mortgage.balAfter, calcPrincipalPortion_eq m 0, annuityBalance_zero]
    ring
  | succ k ih =>
    rw [Mortgage.balAfter, ih, show k + 2 = (k + 1) + 1 from rfl,
      calcPrincipalPortion_eq m (k + 1)]
    ring

lemma runningBalance_eq (m : Mortgage) (i : ℕ) :
    m.runningBalance i = annuityBalance m.period_rate m.principal m.payment i := by
  induction i with
  | zero => rw [Mortgage.runningBalance, annuityBalance_zero]
  | succ k ih =>
    rw [Mortgage.runningBalance, ih]
    show _ - m.calcPrincipalPortion (k + 1) m.principal = _
    rw [calcPrincipalPortion_eq m k]
    ring

lemma valid_ppy_pos (m : Mortgage) (h : m.Valid) : 0 < m.payments_per_year := by
  obtain ⟨-, -, -, -, -, -, -, -, -, hp⟩ := h
  rcases hp with h12 | h26 | h52 <;> omega

lemma valid_num_periods_pos (m : Mortgage) (h : m.Valid) : 0 < m.num_periods := by
  obtain ⟨-, -, -, -, -, -, ha, -, -, hp⟩ := h
  have hppy : 0 < m.payments_per_year := by
    rcases hp with h12 | h26 | h52 <;> omega
  exact Nat.mul_pos (by omega) hppy

lemma valid_rate_nonneg (m : Mortgage) (h : m.Valid) : 0 ≤ m.period_rate := by
  obtain ⟨-, -, hr, -⟩ := h
  unfold Mortgage.period_rate
  positivity

lemma annuityBalance_final (m : Mortgage) (h : m.Valid) :
    annuityBalance m.period_rate m.principal m.payment m.num_periods = 0 := by
  have hn : (m.num_periods : ℚ) ≠ 0 := by
    exact_mod_cast Nat.pos_iff_ne_zero.mp (valid_num_periods_pos m h)
  rcases eq_or_lt_of_le (valid_rate_nonneg m h) with hr | hr
  · unfold annuityBalance Mortgage.payment pmtQ Mortgage.current_balance
    rw [if_pos hr.symm, if_pos hr.symm]
    field_simp
  · have hx : 1 < (1 + m.period_rate) ^ m.num_periods := by
      apply one_lt_pow₀ (by linarith)
        (Nat.pos_iff_ne_zero.mp (valid_num_periods_pos m h))
    have hx1 : (1 + m.period_rate) ^ m.num_periods - 1 ≠ 0 := by linarith
    unfold annuityBalance Mortgage.payment pmtQ Mortgage.current_balance
    rw [if_neg (ne_of_gt hr), if_neg (ne_of_gt hr)]
    field_simp
    ring

lemma table_pp_sum (m : Mortgage) (i : ℕ) :
    (((List.range (i + 1)).map fun j => (m.row j).principal_portion).sum)
      = m.principal - m.balAfter i := by
  induction i with
  | zero =>
    show (m.row 0).principal_portion + 0 = _
    rw [Mortgage.balAfter]
    show m.calcPrincipalPortion 1 m.principal + 0 = _
    ring
  | succ k ih =>
    rw [List.range_succ, List.map_append, List.sum_append, ih]
    show _ + ((m.row (k + 1)).principal_portion + 0) = _
    rw [Mortgage.balAfter]
    show _ + (m.calcPrincipalPortion (k + 2) m.principal + 0)
      = m.principal - (m.balAfter k - m.calcPrincipalPortion (k + 2) m.principal)
    ring

/-! ## Claim theorems -/

/-- C1: for every valid mortgage the stored payment is the ordinary-annuity
level payment on the initial balance — for `period_rate > 0` it equals
`rate * balance / (1 - (1 + rate) ^ (-num_periods))` with a nonzero
denominator, and for `period_rate = 0` it equals `balance / num_periods`
with `num_periods` nonzero, so no division by zero occurs. -/
theorem payment_matches_annuity_formula (m : Mortgage) (h : m.Valid) :
    (0 < m.period_rate →
      1 - (1 + m.period_rate) ^ (-(m.num_periods : ℤ)) ≠ 0 ∧
      m.payment = m.period_rate * m.principal /
        (1 - (1 + m.period_rate) ^ (-(m.num_periods : ℤ)))) ∧
    (m.period_rate = 0 →
      (m.num_periods : ℚ) ≠ 0 ∧ m.payment = m.principal / (m.num_periods : ℚ)) := by
  have hn : m.num_periods ≠ 0 :=
    Nat.pos_iff_ne_zero.mp (valid_num_periods_pos m h)
  have hnq : (m.num_periods : ℚ) ≠ 0 := by exact_mod_cast hn
  constructor
  · intro hr
    have hx : 1 < (1 + m.period_rate) ^ m.num_periods :=
      one_lt_pow₀ (by linarith) hn
    have hx0 : ((1 + m.period_rate) ^ m.num_periods : ℚ) ≠ 0 := by linarith
    have hx1 : ((1 + m.period_rate) ^ m.num_periods : ℚ) - 1 ≠ 0 := by linarith
    have hz : (1 + m.period_rate) ^ (-(m.num_periods : ℤ))
        = ((1 + m.period_rate) ^ m.num_periods)⁻¹ := by
      rw [zpow_neg, zpow_natCast]
    have hden : 1 - (1 + m.period_rate) ^ (-(m.num_periods : ℤ)) ≠ 0 := by
      rw [hz, sub_ne_zero]
      intro h1
      have hone : ((1 + m.period_rate) ^ m.num_periods : ℚ) = 1 :=
        inv_eq_one.mp h1.symm
      linarith
    refine ⟨hden, ?_⟩
    rw [hz]
    unfold Mortgage.payment pmtQ Mortgage.current_balance
    rw [if_neg (ne_of_gt hr)]
    rw [neg_neg]
    rw [inv_eq_one_div]
    field_simp
    ring
  · intro hr
    refine ⟨hnq, ?_⟩
    unfold Mortgage.payment pmtQ Mortgage.current_balance
    rw [if_pos hr]
    ring

theorem payment_matches_annuity_formula_witness :
    0 < mW.period_rate ∧
    mW.payment = mW.period_rate * mW.principal /
      (1 - (1 + mW.period_rate) ^ (-(mW.num_periods : ℤ))) :=
  ⟨mW_rate_pos, ((payment_matches_annuity_formula mW mW_valid).1 mW_rate_pos).2⟩

/-- C2: for every valid construction (prepayment plays no role in the
builder) the amortization table has exactly
`amortization * payments_per_year` rows, numbered `1 .. num_periods` in
ascending order (row at 0-based index `i` carries period number `i + 1`). -/
theorem amortization_table_length_and_numbering (m : Mortgage) (h : m.Valid) :
    m.amortization_table.length = m.amortization * m.payments_per_year ∧
    ∀ i, i < m.amortization_table.length →
      ∃ r, m.amortization_table[i]? = some r ∧ r.payment_num = i + 1 := by
  constructor
  · unfold Mortgage.amortization_table Mortgage.num_periods
    rw [List.length_map, List.length_range]
  · intro i hi
    refine ⟨m.row i, ?_, rfl⟩
    unfold Mortgage.amortization_table at hi ⊢
    rw [List.length_map, List.length_range] at hi
    rw [List.getElem?_map, List.getElem?_range hi]
    rfl

theorem amortization_table_length_and_numbering_witness :
    mW.Valid ∧
    mW.amortization_table.length = mW.amortization * mW.payments_per_year ∧
    ∃ r, mW.amortization_table[0]? = some r ∧ r.payment_num = 1 :=
  ⟨mW_valid, (amortization_table_length_and_numbering mW mW_valid).1,
    (amortization_table_length_and_numbering mW mW_valid).2 0 (by decide)⟩

/-- C3: over the full table of a valid mortgage the principal portions sum
to the starting principal within one currency unit (here: exactly, since
the embedding computes in exact rationals), and the final row's balance is
below one currency unit in absolute value (here: exactly zero). -/
theorem principal_sum_and_final_balance (m : Mortgage) (h : m.Valid) :
    |(m.amortization_table.map PeriodRow.principal_portion).sum - m.principal| < 1 ∧
    ∀ last, m.amortization_table.getLast? = some last → |last.balance| < 1 := by
  obtain ⟨k, hk⟩ : ∃ k, m.num_periods = k + 1 :=
    ⟨m.num_periods - 1, by have := valid_num_periods_pos m h; omega⟩
  have hsum : (m.amortization_table.map PeriodRow.principal_portion).sum
      = m.principal := by
    unfold Mortgage.amortization_table
    rw [List.map_map, hk]
    rw [show (PeriodRow.principal_portion ∘ m.row)
        = fun j => (m.row j).principal_portion from rfl]
    rw [table_pp_sum, balAfter_eq, ← hk, annuityBalance_final m h]
    ring
  constructor
  · rw [hsum]
    simp
  · intro last hlast
    have hget : m.amortization_table.getLast? = some (m.row k) := by
      unfold Mortgage.amortization_table
      rw [hk, List.range_succ, List.map_append,
        show (List.map m.row [k]) = [m.row k] from rfl, List.getLast?_concat]
    rw [hget] at hlast
    obtain rfl : m.row k = last := by injection hlast
    have hb : (m.row k).balance = 0 := by
      show m.balAfter k = 0
      rw [balAfter_eq, ← hk, annuityBalance_final m h]
    rw [hb]
    norm_num

theorem principal_sum_and_final_balance_witness :
    mW.Valid ∧
    |(mW.amortization_table.map PeriodRow.principal_portion).sum - mW.principal| < 1 :=
  ⟨mW_valid, (principal_sum_and_final_balance mW mW_valid).1⟩

/-- C4: in the table built at construction, the row of each period `i + 1`
has `interest_portion` equal to the running balance entering that period
(principal, decremented row by row by the principal portions) times the
period rate, and `principal_portion = payment - interest_portion`. -/
theorem portions_match_running_balance (m : Mortgage) (h : m.Valid)
    (i : ℕ) (hi : i < m.num_periods) :
    ∃ r, m.amortization_table[i]? = some r ∧
      r.interest_portion = m.runningBalance i * m.period_rate ∧
      r.principal_portion = m.payment - r.interest_portion := by
  refine ⟨m.row i, ?_, ?_, ?_⟩
  · unfold Mortgage.amortization_table
    rw [List.getElem?_map, List.getElem?_range hi]
    rfl
  · show m.calcInterestPortion (i + 1) m.principal = _
    rw [calcInterestPortion_eq, runningBalance_eq]
  · show m.calcPrincipalPortion (i + 1) m.principal
      = m.payment - m.calcInterestPortion (i + 1) m.principal
    unfold Mortgage.calcPrincipalPortion Mortgage.calcInterestPortion ppmtQ
      Mortgage.payment Mortgage.current_balance
    ring

theorem portions_match_running_balance_witness :
    0 < mW.num_periods ∧
    ∃ r, mW.amortization_table[0]? = some r ∧
      r.interest_portion = mW.runningBalance 0 * mW.period_rate ∧
      r.principal_portion = mW.payment - r.interest_portion :=
  ⟨by decide, portions_match_running_balance mW mW_valid 0 (by decide)⟩

lemma except_bind_ok {α β : Type} (a : α) (f : α → Except String β) :
    (Except.ok a >>= f : Except String β) = f a := rfl

lemma except_bind_err {α β : Type} (e : String) (f : α → Except String β) :
    (Except.error e >>= f : Except String β) = Except.error e := rfl

lemma balAfter_prepayment_irrelevant (p r : ℚ) (t a : ℕ) (s : Date)
    (q1 q2 : ℕ) (d : String) (y : ℕ) (i : ℕ) :
    Mortgage.balAfter ⟨p, r, t, a, s, q1, d, y⟩ i
      = Mortgage.balAfter ⟨p, r, t, a, s, q2, d, y⟩ i := by
  induction i with
  | zero => rfl
  | succ k ih =>
    rw [Mortgage.balAfter, Mortgage.balAfter, ih]
    rfl

/-- C5: two mortgages that agree on every stored field except
`prepayment_per_period` have the same payment and identical amortization
tables — the validated, stored prepayment never enters schedule
construction. -/
theorem prepayment_has_no_schedule_effect (m1 m2 : Mortgage)
    (h1 : m1.Valid) (h2 : m2.Valid)
    (hp : m1.principal = m2.principal)
    (hr : m1.interest_rate = m2.interest_rate)
    (ht : m1.term = m2.term)
    (ha : m1.amortization = m2.amortization)
    (hs : m1.start_date = m2.start_date)
    (hpr : m1.product = m2.product)
    (hpy : m1.payments_per_year = m2.payments_per_year) :
    m1.payment = m2.payment ∧ m1.amortization_table = m2.amortization_table := by
  obtain ⟨p1, r1, t1, a1, s1, q1, d1, y1⟩ := m1
  obtain ⟨p2, r2, t2, a2, s2, q2, d2, y2⟩ := m2
  replace hp : p1 = p2 := hp
  replace hr : r1 = r2 := hr
  replace ht : t1 = t2 := ht
  replace ha : a1 = a2 := ha
  replace hs : s1 = s2 := hs
  replace hpr : d1 = d2 := hpr
  replace hpy : y1 = y2 := hpy
  subst hp hr ht ha hs hpr hpy
  refine ⟨rfl, ?_⟩
  unfold Mortgage.amortization_table
  have hrow : Mortgage.row ⟨p1, r1, t1, a1, s1, q1, d1, y1⟩
      = Mortgage.row ⟨p1, r1, t1, a1, s1, q2, d1, y1⟩ := by
    funext i
    unfold Mortgage.row
    rw [balAfter_prepayment_irrelevant p1 r1 t1 a1 s1 q1 q2 d1 y1 i]
    rfl
  rw [hrow]
  rfl

theorem prepayment_has_no_schedule_effect_witness :
    mW.prepayment_per_period = 0 ∧ mP.prepayment_per_period = 1000 ∧
    mW.payment = mP.payment ∧ mW.amortization_table = mP.amortization_table :=
  ⟨rfl, rfl,
    (prepayment_has_no_schedule_effect mW mP mW_valid mP_valid
      rfl rfl rfl rfl rfl rfl rfl).1,
    (prepayment_has_no_schedule_effect mW mP mW_valid mP_valid
      rfl rfl rfl rfl rfl rfl rfl).2⟩

lemma vp_neg : validate_principal (.vint (-1000)) = .error principalMsg := rfl

lemma vp_str : validate_principal (.vstr "1000!") = .error principalMsg := rfl

lemma vp_big : validate_principal (.vint 12000000) = .error principalMsg := rfl

lemma vp_base : validate_principal (.vint 1000000) = .ok 1000000 := by
  norm_num [validate_principal]

lemma vr_neg : validate_interest_rate (.vfloat (-1/10)) = .error interestRateMsg := by
  norm_num [validate_interest_rate, rateNormalize, rateRangeCheck]

lemma vr_str : validate_interest_rate (.vstr "0.2a") = .error interestRateMsg := rfl

lemma vr_thirty : validate_interest_rate (.vint 30) = .error interestRateMsg := by
  norm_num [validate_interest_rate, rateNormalize, rateRangeCheck]

lemma vr_half : validate_interest_rate (.vfloat (1/2)) = .error interestRateMsg := by
  norm_num [validate_interest_rate, rateNormalize, rateRangeCheck]

lemma vr_base : validate_interest_rate (.vfloat (3/100)) = .ok (3/100) := by
  norm_num [validate_interest_rate, rateNormalize, rateRangeCheck]

lemma vt_zero : validate_term (.vint 0) = .error termMsg := rfl

lemma vt_str : validate_term (.vstr "2!") = .error termMsg := rfl

lemma vt_big : validate_term (.vint 35) = .error termMsg := rfl

lemma vt_base : validate_term (.vint 3) = .ok 3 := rfl

lemma va_zero : validate_amortization (.vint 0) = .error amortizationMsg := rfl

lemma va_str : validate_amortization (.vstr "2!") = .error amortizationMsg := rfl

lemma va_big : validate_amortization (.vint 35) = .error amortizationMsg := rfl

lemma va_base : validate_amortization (.vint 25) = .ok 25 := rfl

lemma vs_base : validate_start_date (.dt ⟨2021, 7, 1⟩) = .ok ⟨2021, 7, 1⟩ := rfl

lemma vq_neg : validate_prepayment_per_period (.vint (-100)) = .error prepaymentMsg := rfl

lemma vq_str : validate_prepayment_per_period (.vstr "200a") = .error prepaymentMsg := rfl

lemma vq_big : validate_prepayment_per_period (.vint 30000) = .error prepaymentMsg := rfl

lemma vq_base : validate_prepayment_per_period (.vint 0) = .ok 0 := rfl

lemma vd_base : validate_product "fixed" = .ok "fixed" := rfl

lemma vy_neg : validate_payments_per_year (.vint (-10)) = .error paymentsPerYearMsg := rfl

lemma vy_ten : validate_payments_per_year (.vint 10) = .error paymentsPerYearMsg := rfl

lemma vy_big : validate_payments_per_year (.vint 35) = .error paymentsPerYearMsg := rfl

/-- C6: with the otherwise-valid base arguments of the repository's tests,
construction fails with the setter's ValidationError — whose message names
the field and its allowed domain — for every listed out-of-domain value of
`principal`, `interest_rate`, `term`, `amortization`,
`prepayment_per_period` and `payments_per_year`; since the result is an
`Except.error`, no instance (hence no validated state) reaches the caller. -/
theorem invalid_inputs_raise_validation_errors :
    (Mortgage.make (.vint (-1000)) (.vfloat (3/100)) (.vint 3) (.vint 25)
      (.dt ⟨2021, 7, 1⟩) (.vint 0) "fixed" (.vint 12) = .error principalMsg) ∧
    (Mortgage.make (.vstr "1000!") (.vfloat (3/100)) (.vint 3) (.vint 25)
      (.dt ⟨2021, 7, 1⟩) (.vint 0) "fixed" (.vint 12) = .error principalMsg) ∧
    (Mortgage.make (.vint 12000000) (.vfloat (3/100)) (.vint 3) (.vint 25)
      (.dt ⟨2021, 7, 1⟩) (.vint 0) "fixed" (.vint 12) = .error principalMsg) ∧
    (Mortgage.make (.vint 1000000) (.vfloat (-1/10)) (.vint 3) (.vint 25)
      (.dt ⟨2021, 7, 1⟩) (.vint 0) "fixed" (.vint 12) = .error interestRateMsg) ∧
    (Mortgage.make (.vint 1000000) (.vstr "0.2a") (.vint 3) (.vint 25)
      (.dt ⟨2021, 7, 1⟩) (.vint 0) "fixed" (.vint 12) = .error interestRateMsg) ∧
    (Mortgage.make (.vint 1000000) (.vint 30) (.vint 3) (.vint 25)
      (.dt ⟨2021, 7, 1⟩) (.vint 0) "fixed" (.vint 12) = .error interestRateMsg) ∧
    (Mortgage.make (.vint 1000000) (.vfloat (1/2)) (.vint 3) (.vint 25)
      (.dt ⟨2021, 7, 1⟩) (.vint 0) "fixed" (.vint 12) = .error interestRateMsg) ∧
    (Mortgage.make (.vint 1000000) (.vfloat (3/100)) (.vint 0) (.vint 25)
      (.dt ⟨2021, 7, 1⟩) (.vint 0) "fixed" (.vint 12) = .error termMsg) ∧
    (Mortgage.make (.vint 1000000) (.vfloat (3/100)) (.vstr "2!") (.vint 25)
      (.dt ⟨2021, 7, 1⟩) (.vint 0) "fixed" (.vint 12) = .error termMsg) ∧
    (Mortgage.make (.vint 1000000) (.vfloat (3/100)) (.vint 35) (.vint 25)
      (.dt ⟨2021, 7, 1⟩) (.vint 0) "fixed" (.vint 12) = .error termMsg) ∧
    (Mortgage.make (.vint 1000000) (.vfloat (3/100)) (.vint 3) (.vint 0)
      (.dt ⟨2021, 7, 1⟩) (.vint 0) "fixed" (.vint 12) = .error amortizationMsg) ∧
    (Mortgage.make (.vint 1000000) (.vfloat (3/100)) (.vint 3) (.vstr "2!")
      (.dt ⟨2021, 7, 1⟩) (.vint 0) "fixed" (.vint 12) = .error amortizationMsg) ∧
    (Mortgage.make (.vint 1000000) (.vfloat (3/100)) (.vint 3) (.vint 35)
      (.dt ⟨2021, 7, 1⟩) (.vint 0) "fixed" (.vint 12) = .error amortizationMsg) ∧
    (Mortgage.make (.vint 1000000) (.vfloat (3/100)) (.vint 3) (.vint 25)
      (.dt ⟨2021, 7, 1⟩) (.vint (-100)) "fixed" (.vint 12) = .error prepaymentMsg) ∧
    (Mortgage.make (.vint 1000000) (.vfloat (3/100)) (.vint 3) (.vint 25)
      (.dt ⟨2021, 7, 1⟩) (.vstr "200a") "fixed" (.vint 12) = .error prepaymentMsg) ∧
    (Mortgage.make (.vint 1000000) (.vfloat (3/100)) (.vint 3) (.vint 25)
      (.dt ⟨2021, 7, 1⟩) (.vint 30000) "fixed" (.vint 12) = .error prepaymentMsg) ∧
    (Mortgage.make (.vint 1000000) (.vfloat (3/100)) (.vint 3) (.vint 25)
      (.dt ⟨2021, 7, 1⟩) (.vint 0) "fixed" (.vint (-10)) = .error paymentsPerYearMsg) ∧
    (Mortgage.make (.vint 1000000) (.vfloat (3/100)) (.vint 3) (.vint 25)
      (.dt ⟨2021, 7, 1⟩) (.vint 0) "fixed" (.vint 10) = .error paymentsPerYearMsg) ∧
    (Mortgage.make (.vint 1000000) (.vfloat (3/100)) (.vint 3) (.vint 25)
      (.dt ⟨2021, 7, 1⟩) (.vint 0) "fixed" (.vint 35) = .error paymentsPerYearMsg) := by
  refine ⟨?_, ?_, ?_, ?_, ?_, ?_, ?_, ?_, ?_, ?_, ?_, ?_, ?_, ?_, ?_, ?_, ?_, ?_, ?_⟩ <;>
    simp only [Mortgage.make, except_bind_ok, except_bind_err,
      vp_neg, vp_str, vp_big, vp_base,
      vr_neg, vr_str, vr_thirty, vr_half, vr_base,
      vt_zero, vt_str, vt_big, vt_base,
      va_zero, va_str, va_big, va_base, vs_base,
      vq_neg, vq_str, vq_big, vq_base, vd_base,
      vy_neg, vy_ten, vy_big]

/-- C7: a numeric `interest_rate` argument at least `1.0` is divided by
`100` before the `[0, 0.25]` range check (so `5` is accepted and stored as
`0.05` while `30` is rejected), and an argument below `1.0` is
range-checked directly. -/
theorem interest_rate_percentage_normalization (r : ℚ) (h : 1 ≤ r) :
    validate_interest_rate (.vfloat r) =
      (if 0 ≤ r / 100 ∧ r / 100 ≤ 1/4 then .ok (r / 100)
        else .error interestRateMsg) ∧
    validate_interest_rate (.vint 5) = .ok (1/20) ∧
    validate_interest_rate (.vint 30) = .error interestRateMsg ∧
    ∀ q : ℚ, q < 1 →
      validate_interest_rate (.vfloat q) =
        (if 0 ≤ q ∧ q ≤ 1/4 then .ok q else .error interestRateMsg) := by
  refine ⟨?_, ?_, ?_, ?_⟩
  · simp [validate_interest_rate, rateRangeCheck, rateNormalize, h]
  · norm_num [validate_interest_rate, rateRangeCheck, rateNormalize]
  · norm_num [validate_interest_rate, rateRangeCheck, rateNormalize]
  · intro q hq
    simp [validate_interest_rate, rateRangeCheck, rateNormalize, not_le.mpr hq]

theorem interest_rate_percentage_normalization_witness :
    1 ≤ (5 : ℚ) ∧
    validate_interest_rate (.vfloat 5) =
      (if 0 ≤ (5 : ℚ) / 100 ∧ (5 : ℚ) / 100 ≤ 1/4 then .ok ((5 : ℚ) / 100)
        else .error interestRateMsg) :=
  ⟨by norm_num, (interest_rate_percentage_normalization 5 (by norm_num)).1⟩

/-- C8 counterexample: for the valid biweekly mortgage `mB`
(`payments_per_year = 26`), the second table row's `payment_date` is the
start date advanced by one month (`2021-08-01`), not by the biweekly
interval of 14 days (`2021-07-15`), so the claim that the date advances by
"the corresponding biweekly or weekly interval" when
`payments_per_year = 26` fails on the code. -/
theorem payment_dates_monthly_counterexample :
    mB.Valid ∧ mB.payments_per_year = 26 ∧
    (mB.amortization_table[1]?).map PeriodRow.payment_date
      = some ⟨2021, 8, 1⟩ ∧
    addDays mB.start_date 14 = ⟨2021, 7, 15⟩ ∧
    decide ((⟨2021, 8, 1⟩ : Date) = ⟨2021, 7, 15⟩) = false :=
  ⟨mB_valid, rfl, rfl, rfl, rfl⟩

/-- C8 amended: for every valid mortgage, the row at 0-based index `i`
(period `i + 1`) has `payment_date = start_date + i months`, regardless of
`payments_per_year` — the source always uses `relativedelta(months=i)`. -/
theorem payment_dates_always_monthly (m : Mortgage) (h : m.Valid)
    (i : ℕ) (hi : i < m.num_periods) :
    ∃ r, m.amortization_table[i]? = some r ∧
      r.payment_date = addMonths m.start_date i := by
  refine ⟨m.row i, ?_, rfl⟩
  unfold Mortgage.amortization_table
  rw [List.getElem?_map, List.getElem?_range hi]
  rfl

theorem payment_dates_always_monthly_witness :
    1 < mB.num_periods ∧
    ∃ r, mB.amortization_table[1]? = some r ∧
      r.payment_date = addMonths mB.start_date 1 :=
  ⟨by decide, payment_dates_always_monthly mB mB_valid 1 (by decide)⟩

/-- C9: on the test's inputs (start `2022-01-01`, end `2023-01-05`) the
period-count computation does not return `payments_per_year` — it
unconditionally raises, because `(end_date - start_date)` is a
`datetime.timedelta`, which has no `.months` attribute (and the method
reads nothing from `self`, so its result could never depend on
`payments_per_year` anyway). -/
theorem num_periods_between_dates_always_raises :
    calculate_num_periods_between_dates (.str "2022-01-01") (.str "2023-01-05")
      = .error "AttributeError: datetime.timedelta object has no attribute months" :=
  rfl

/-- C10: the claim fails on the code because `renew_mortgage` is a `pass`
stub.  Whatever the mortgage, the invocation date and the arguments, the
call returns without raising and leaves the instrument unchanged — so no
StateError is raised before `term_end_date` (witness the concrete call on
`mW` dated 2021-08-01, strictly before its `term_end_date` 2022-07-01),
and no renewal or fresh schedule is ever produced at or after it (the
concrete call dated 2022-07-01 also returns the unchanged `mW`). -/
theorem renew_mortgage_stub_never_raises :
    (∀ (m : Mortgage) (d : Date) (t r : PyVal) (ty : String) (a : PyVal)
      (sd : DateVal), m.renew_mortgage d t r ty a sd = .ok m) ∧
    dateLt ⟨2021, 8, 1⟩ mW.term_end_date = true ∧
    mW.renew_mortgage ⟨2021, 8, 1⟩ (.vint 2) (.vint 3) "fixed" (.vint 20)
      (.dt ⟨2022, 8, 1⟩) = .ok mW ∧
    dateLt ⟨2022, 7, 1⟩ mW.term_end_date = false ∧
    mW.renew_mortgage ⟨2022, 7, 1⟩ (.vint 2) (.vint 3) "fixed" (.vint 20)
      (.dt ⟨2022, 8, 1⟩) = .ok mW :=
  ⟨fun m d t r ty a sd => rfl, by decide, rfl, by decide, rfl⟩
